import Mathlib

/-!
Verification of the Script Runner core of `python-backend/app/main.py`:
a shallow embedding of the `ScriptRunner` class and the `websocket_run`
receive loop, together with theorems about their error handling, session
lifecycle and message ordering.

Modelling conventions:
* machine-level concurrency follows the cooperative model of the system:
  tasks run between explicit suspension points, and a channel send
  (`websocket.send_json`) is one atomic action at such a point;
* a spawned child process is a record carrying the exit code it will
  eventually produce; `returncode = none` means the child is still alive,
  and its stdin pipe is open exactly while it is alive;
* exceptions are `Except` values; an exception the code does not catch is
  returned as a `Fault` that ends the receive loop.
-/

namespace MWebsite

/-! ## Outbound wire messages (the `send_json` payloads) -/

inductive OutMsg where
  | scriptsList (entries : List (String × String))
  | statusStarted (script : String)
  | statusStopped
  | statusFinished (returncode : Int)
  | statusError (message : String)
  | output (stream : String) (data : String)
  deriving DecidableEq

def OutMsg.isOutput : OutMsg → Bool
  | .output _ _ => true
  | _ => false

def OutMsg.isStarted : OutMsg → Bool
  | .statusStarted _ => true
  | _ => false

def OutMsg.isTerminal : OutMsg → Bool
  | .statusFinished _ => true
  | .statusStopped => true
  | _ => false

def OutMsg.isError : OutMsg → Bool
  | .statusError _ => true
  | _ => false

def OutMsg.dataText : OutMsg → String
  | .output _ d => d
  | _ => ""

/-! ## `bytes.decode(errors="replace")`

The decoder used by `ScriptRunner._stream_output` on every chunk it reads:
UTF-8 decoding in which each maximal invalid subsequence is replaced by
U+FFFD.  It is a total function: no byte sequence can make it fail, which
is the "invalid byte sequences must never abort the pump" guarantee. -/

def replacementChar : Char := Char.ofNat 0xFFFD

def isCont (b : Nat) : Bool := 0x80 ≤ b && b < 0xC0

/-- Is `c1` a valid second byte after the three-byte lead `b`?
(E0 requires A0..BF, ED requires 80..9F, otherwise 80..BF.) -/
def cont3ok (b c1 : Nat) : Bool :=
  if b = 0xE0 then 0xA0 ≤ c1 && c1 ≤ 0xBF
  else if b = 0xED then 0x80 ≤ c1 && c1 ≤ 0x9F
  else isCont c1

/-- Is `c1` a valid second byte after the four-byte lead `b`?
(F0 requires 90..BF, F4 requires 80..8F, otherwise 80..BF.) -/
def cont4ok (b c1 : Nat) : Bool :=
  if b = 0xF0 then 0x90 ≤ c1 && c1 ≤ 0xBF
  else if b = 0xF4 then 0x80 ≤ c1 && c1 ≤ 0x8F
  else isCont c1

/-- Decode one scalar value (or one replacement) from lead byte `b` followed
by `rest`; returns the decoded character and the bytes not yet consumed. -/
def decodeOne (b : Nat) (rest : List Nat) : Char × List Nat :=
  if b < 0x80 then (Char.ofNat b, rest)
  else if b < 0xC2 then
    -- stray continuation byte, or overlong lead C0/C1
    (replacementChar, rest)
  else if b < 0xE0 then
    match rest with
    | [] => (replacementChar, [])
    | c1 :: rest1 =>
      if isCont c1 then (Char.ofNat ((b - 0xC0) * 0x40 + (c1 - 0x80)), rest1)
      else (replacementChar, c1 :: rest1)
  else if b < 0xF0 then
    match rest with
    | [] => (replacementChar, [])
    | c1 :: rest1 =>
      if cont3ok b c1 then
        match rest1 with
        | [] => (replacementChar, [])
        | c2 :: rest2 =>
          if isCont c2 then
            (Char.ofNat ((b - 0xE0) * 0x1000 + (c1 - 0x80) * 0x40 + (c2 - 0x80)), rest2)
          else (replacementChar, c2 :: rest2)
      else (replacementChar, c1 :: rest1)
  else if b < 0xF5 then
    match rest with
    | [] => (replacementChar, [])
    | c1 :: rest1 =>
      if cont4ok b c1 then
        match rest1 with
        | [] => (replacementChar, [])
        | c2 :: rest2 =>
          if isCont c2 then
            match rest2 with
            | [] => (replacementChar, [])
            | c3 :: rest3 =>
              if isCont c3 then
                (Char.ofNat ((b - 0xF0) * 0x40000 + (c1 - 0x80) * 0x1000
                    + (c2 - 0x80) * 0x40 + (c3 - 0x80)), rest3)
              else (replacementChar, c3 :: rest3)
          else (replacementChar, c2 :: rest2)
      else (replacementChar, c1 :: rest1)
  else
    -- F5..FF can never start a valid sequence
    (replacementChar, rest)

theorem decodeOne_length (b : Nat) (rest : List Nat) :
    (decodeOne b rest).2.length ≤ rest.length := by
  unfold decodeOne
  repeat' split
  all_goals simp_all
  all_goals omega

/-- The decode loop, structurally recursive on a fuel argument so that it is
kernel-evaluable; `fuel ≥ length` always suffices because `decodeOne`
consumes at least one byte per character. -/
def utf8Aux : Nat → List Nat → List Char
  | _, [] => []
  | 0, _ :: _ => []
  | fuel + 1, b :: rest =>
    (decodeOne b rest).1 :: utf8Aux fuel (decodeOne b rest).2

def utf8DecodeReplace (l : List Nat) : List Char := utf8Aux l.length l

theorem utf8Aux_fuel (f1 : Nat) : ∀ (f2 : Nat) (l : List Nat),
    l.length ≤ f1 → l.length ≤ f2 → utf8Aux f1 l = utf8Aux f2 l := by
  induction f1 with
  | zero =>
    intro f2 l h1 _
    match l with
    | [] => cases f2 <;> rfl
    | _ :: _ => simp at h1
  | succ f1 ih =>
    intro f2 l h1 h2
    match l with
    | [] => cases f2 <;> rfl
    | b :: rest =>
      match f2 with
      | 0 => simp at h2
      | f2 + 1 =>
        simp only [utf8Aux]
        have hlen := decodeOne_length b rest
        simp only [List.length_cons] at h1 h2
        rw [ih f2 (decodeOne b rest).2 (by omega) (by omega)]

/-- The step equation of the decoder. -/
theorem utf8DecodeReplace_cons (b : Nat) (rest : List Nat) :
    utf8DecodeReplace (b :: rest)
      = (decodeOne b rest).1 :: utf8DecodeReplace (decodeOne b rest).2 := by
  show utf8Aux (rest.length + 1) (b :: rest) = _
  simp only [utf8Aux]
  rw [utf8DecodeReplace,
    utf8Aux_fuel rest.length (decodeOne b rest).2.length (decodeOne b rest).2
      (decodeOne_length b rest) (Nat.le_refl _)]

/-- On pure ASCII input the replacement decoder is the identity embedding:
nothing is ever substituted when no invalid sequence occurs. -/
theorem utf8DecodeReplace_ascii (bs : List Nat) (h : ∀ b ∈ bs, b < 0x80) :
    utf8DecodeReplace bs = bs.map Char.ofNat := by
  induction bs with
  | nil => rfl
  | cons b rest ih =>
    have hb : b < 0x80 := h b (by simp)
    have ih2 := ih (fun x hx => h x (by simp [hx]))
    have hd : decodeOne b rest = (Char.ofNat b, rest) := by
      simp [decodeOne, hb]
    rw [utf8DecodeReplace_cons, hd, List.map_cons, ih2]

/-! ## `ScriptRunner._stream_output` (one output pump)

The pump loop reads successive chunks with `stream.read(1024)`, breaks on
the first empty chunk (end of stream) and otherwise emits one
`output` message whose text is the replacement-decode of the chunk.
`chunks` is the sequence of values returned by the successive reads; a run
that drains completely is one in which every read before end-of-stream
returned a non-empty chunk. -/

def ScriptRunner._stream_output (channel : String) : List (List Nat) → List OutMsg
  | [] => []
  | data :: rest =>
    if data = [] then []
    else OutMsg.output channel (String.mk (utf8DecodeReplace data))
        :: ScriptRunner._stream_output channel rest

/-- C5: for a run that drains completely (every read before end-of-stream is
non-empty), the pump emits exactly one `output` message per chunk, in
production order, whose text is the lossy replacement-decode of that chunk;
hence the texts, concatenated in order, are the per-stream byte output of
the child modulo replacement substitution, and the decoder being a total
function means no byte sequence aborts the pump. -/
theorem stream_output_drained (channel : String) (chunks : List (List Nat))
    (h : ∀ d ∈ chunks, d ≠ []) :
    ScriptRunner._stream_output channel chunks
      = chunks.map (fun d => OutMsg.output channel (String.mk (utf8DecodeReplace d)))
    ∧ (ScriptRunner._stream_output channel chunks).map OutMsg.dataText
      = chunks.map (fun d => String.mk (utf8DecodeReplace d)) := by
  have main : ScriptRunner._stream_output channel chunks
      = chunks.map (fun d => OutMsg.output channel (String.mk (utf8DecodeReplace d))) := by
    induction chunks with
    | nil => rfl
    | cons d rest ih =>
      rw [ScriptRunner._stream_output, if_neg (h d (by simp)),
        ih (fun x hx => h x (by simp [hx]))]
      rfl
  refine ⟨main, ?_⟩
  rw [main, List.map_map]
  rfl

/-- Witness for C5 at a concrete input: one ASCII chunk and one chunk that
is a lone invalid byte (0xFF), which is decoded to U+FFFD rather than
aborting the pump. -/
theorem stream_output_drained_witness :
    (∀ d ∈ [[104, 105], [255]], d ≠ ([] : List Nat))
    ∧ ScriptRunner._stream_output "stdout" [[104, 105], [255]]
      = [[104, 105], [255]].map
          (fun d => OutMsg.output "stdout" (String.mk (utf8DecodeReplace d))) :=
  ⟨by decide, (stream_output_drained "stdout" [[104, 105], [255]] (by decide)).1⟩

/-! ## The process session (`class ScriptRunner`)

Fields of the Python object: `script_id`, `process`, `stdout_task`,
`stderr_task` (the `websocket` handle is the channel the messages below are
sent on, and `_output_lock` only serializes sends, which are already atomic
actions in this model).  A task slot is `none` before `start`, `some false`
while the pump runs and `some true` once cancelled.  A `Proc` carries
`returncode` (`none` while the child is alive), the code `exitCode` the
child produces when it ends, and `stdinOpen`, which models the child's
stdin pipe: it is open exactly while the child is alive, so a
`write`+`drain` to a dead child's pipe raises. -/

structure Proc where
  returncode : Option Int
  exitCode : Int
  stdinOpen : Bool
  deriving DecidableEq

structure ScriptRunner where
  script_id : String
  process : Option Proc
  stdout_task : Option Bool
  stderr_task : Option Bool
  deriving DecidableEq

/-- `self.process.terminate()`: raises `ProcessLookupError` when the child
is already gone; otherwise delivers the graceful signal. -/
def Proc.terminateSignal (p : Proc) : Except String Proc :=
  match p.returncode with
  | some _ => Except.error "ProcessLookupError"
  | none => Except.ok p

/-- `self.process.kill()`: the child is dead afterwards (its negative signal
code is what the watcher later reports as the return code). -/
def Proc.kill (p : Proc) : Proc :=
  { p with returncode := some (-9), stdinOpen := false }

/-- The suspension-point actions a session operation performs, in order. -/
inductive SEvent where
  | sentTerm
  | gracePassed
  | sentKill
  | awaitedExit (rc : Int)
  | cancelledTask (name : String)
  | sent (m : OutMsg)
  deriving DecidableEq

/-- The channel messages among a list of session events, in order. -/
def sentOf (evs : List SEvent) : List OutMsg :=
  evs.filterMap (fun e => match e with | SEvent.sent m => some m | _ => none)

/-- `ScriptRunner._cleanup_tasks`: for each of the two pump tasks that
exists, cancel it and await the cancellation. -/
def ScriptRunner._cleanup_tasks (r : ScriptRunner) : ScriptRunner × List SEvent :=
  let e1 : List SEvent :=
    match r.stdout_task with
    | some _ => [SEvent.cancelledTask "stdout"]
    | none => []
  let e2 : List SEvent :=
    match r.stderr_task with
    | some _ => [SEvent.cancelledTask "stderr"]
    | none => []
  ({ r with stdout_task := r.stdout_task.map (fun _ => true),
            stderr_task := r.stderr_task.map (fun _ => true) },
   e1 ++ e2)

/-- `ScriptRunner.wait`: no-op without a process; otherwise await the
child's natural exit, cancel both pumps, then send `status finished` with
the real return code. -/
def ScriptRunner.wait (r : ScriptRunner) : ScriptRunner × List SEvent :=
  match r.process with
  | none => (r, [])
  | some p =>
    let rc := p.returncode.getD p.exitCode
    let c := ScriptRunner._cleanup_tasks
      { r with process := some { p with returncode := some rc, stdinOpen := false } }
    (c.1, SEvent.awaitedExit rc :: c.2 ++ [SEvent.sent (OutMsg.statusFinished rc)])

/-- `ScriptRunner.terminate`: if the child has not exited, send the graceful
signal, await up to the 5-unit grace period (`exitsInGrace` tells whether the
child exits voluntarily within it) and kill on timeout; in all cases then
cancel both pump tasks and await their cancellation. -/
def ScriptRunner.terminate (r : ScriptRunner) (exitsInGrace : Bool) :
    Except String (ScriptRunner × List SEvent) :=
  match r.process with
  | some p =>
    match p.returncode with
    | none =>
      match p.terminateSignal with
      | Except.error e => Except.error e
      | Except.ok p0 =>
        if exitsInGrace then
          let c := ScriptRunner._cleanup_tasks
            { r with process := some { p0 with returncode := some p0.exitCode, stdinOpen := false } }
          Except.ok (c.1, SEvent.sentTerm :: SEvent.awaitedExit p0.exitCode :: c.2)
        else
          let c := ScriptRunner._cleanup_tasks { r with process := some p0.kill }
          Except.ok (c.1, SEvent.sentTerm :: SEvent.gracePassed :: SEvent.sentKill :: c.2)
    | some _ =>
      let c := ScriptRunner._cleanup_tasks r
      Except.ok (c.1, c.2)
  | none =>
    let c := ScriptRunner._cleanup_tasks r
    Except.ok (c.1, c.2)

/-- `ScriptRunner.write`: raises `RuntimeError` when no process is active;
with an active handle, `stdin.write` + `drain` raises once the child's
stdin pipe is closed. -/
inductive WriteErr where
  | processNotRunning
  | pipeClosed
  deriving DecidableEq

def ScriptRunner.write (r : ScriptRunner) (_data : String) : Except WriteErr ScriptRunner :=
  match r.process with
  | none => Except.error WriteErr.processNotRunning
  | some p =>
    if p.stdinOpen then Except.ok r
    else Except.error WriteErr.pipeClosed

/-- `ScriptRunner.start` (session side): resolve the id in the script table
first — raising `HTTPException(404)` before anything is spawned when it is
unknown — then spawn the child with piped streams, create the two pump
tasks and send `status started`.  `exitCode` is the code the spawned child
will eventually exit with. -/
def ScriptRunner.start (scripts : List String) (r : ScriptRunner) (exitCode : Int) :
    Except String (ScriptRunner × List OutMsg) :=
  if r.script_id ∈ scripts then
    Except.ok
      ({ r with process := some { returncode := none, exitCode := exitCode, stdinOpen := true },
                stdout_task := some false, stderr_task := some false },
       [OutMsg.statusStarted r.script_id])
  else Except.error "Script not found"

/-- C6: `wait()` on a session whose child exits naturally awaits the exit,
then cancels both output pumps, and only then sends `status finished`
carrying the child's real exit code; on a session that never started a
process it is a no-op that emits nothing. -/
theorem wait_spec (r : ScriptRunner) :
    (r.process = none → ScriptRunner.wait r = (r, []))
    ∧ (∀ p, r.process = some p → p.returncode = none →
        ScriptRunner.wait r
          = ({ r with
                process := some { p with returncode := some p.exitCode, stdinOpen := false },
                stdout_task := r.stdout_task.map (fun _ => true),
                stderr_task := r.stderr_task.map (fun _ => true) },
             SEvent.awaitedExit p.exitCode
               :: (ScriptRunner._cleanup_tasks r).2
               ++ [SEvent.sent (OutMsg.statusFinished p.exitCode)])) := by
  constructor
  · intro h
    simp [ScriptRunner.wait, h]
  · intro p hp hrc
    simp [ScriptRunner.wait, hp, hrc, ScriptRunner._cleanup_tasks]

/-- Witness for C6 at a concrete session: a running child with exit code 7
and both pumps live. -/
theorem wait_spec_witness :
    ScriptRunner.wait
        { script_id := "hangman",
          process := some { returncode := none, exitCode := 7, stdinOpen := true },
          stdout_task := some false, stderr_task := some false }
      = ({ script_id := "hangman",
           process := some { returncode := some 7, exitCode := 7, stdinOpen := false },
           stdout_task := some true, stderr_task := some true },
         [SEvent.awaitedExit 7, SEvent.cancelledTask "stdout", SEvent.cancelledTask "stderr",
          SEvent.sent (OutMsg.statusFinished 7)]) :=
  (wait_spec _).2 _ rfl rfl

/-- Cancelling already-cancelled tasks changes nothing. -/
theorem cleanup_fst_idem (r : ScriptRunner) :
    (ScriptRunner._cleanup_tasks ((ScriptRunner._cleanup_tasks r).1)).1
      = (ScriptRunner._cleanup_tasks r).1 := by
  obtain ⟨sid, pr, t1, t2⟩ := r
  rcases t1 with _ | b1 <;> rcases t2 with _ | b2 <;> rfl

/-- C7: `terminate()` never raises; when the child has not yet exited it
sends the graceful signal and, exactly when the grace period elapses
without a voluntary exit, force-kills; when the child already exited (or no
process exists) it sends no signal at all; in every case it then cancels
both pump tasks and awaits the cancellations before returning, and calling
it again on the resulting session is safe and leaves the session
unchanged. -/
theorem terminate_spec (r : ScriptRunner) (g : Bool) :
    ∃ r1 evs, ScriptRunner.terminate r g = Except.ok (r1, evs)
    ∧ r1.stdout_task = r.stdout_task.map (fun _ => true)
    ∧ r1.stderr_task = r.stderr_task.map (fun _ => true)
    ∧ (∀ p, r.process = some p → p.returncode = none →
        (g = true →
          evs = SEvent.sentTerm :: SEvent.awaitedExit p.exitCode
              :: (ScriptRunner._cleanup_tasks r).2)
        ∧ (g = false →
          evs = SEvent.sentTerm :: SEvent.gracePassed :: SEvent.sentKill
              :: (ScriptRunner._cleanup_tasks r).2))
    ∧ ((r.process = none ∨ ∃ p c, r.process = some p ∧ p.returncode = some c) →
        evs = (ScriptRunner._cleanup_tasks r).2 ∧ r1 = (ScriptRunner._cleanup_tasks r).1)
    ∧ (∀ p, r1.process = some p → p.returncode.isSome = true)
    ∧ (∀ g2, ScriptRunner.terminate r1 g2
        = Except.ok (r1, (ScriptRunner._cleanup_tasks r1).2)) := by
  obtain ⟨sid, pr, t1, t2⟩ := r
  rcases pr with _ | ⟨rc, ec, so⟩
  · refine ⟨_, _, rfl, rfl, rfl, ?_, ?_, ?_, ?_⟩
    · intro p hp; exact Option.noConfusion hp
    · intro _; exact ⟨rfl, rfl⟩
    · intro p hp; exact Option.noConfusion hp
    · intro g2; rcases t1 with _ | b1 <;> rcases t2 with _ | b2 <;> rfl
  · rcases rc with _ | c
    · cases g
      · refine ⟨_, _, rfl, rfl, rfl, ?_, ?_, ?_, ?_⟩
        · intro p hp hrc
          cases hp
          exact ⟨fun h => Bool.noConfusion h, fun _ => rfl⟩
        · rintro (h | ⟨p, c, hp, hc⟩)
          · exact Option.noConfusion h
          · cases hp; exact Option.noConfusion hc
        · intro p hp; cases hp; rfl
        · intro g2; rcases t1 with _ | b1 <;> rcases t2 with _ | b2 <;> rfl
      · refine ⟨_, _, rfl, rfl, rfl, ?_, ?_, ?_, ?_⟩
        · intro p hp hrc
          cases hp
          exact ⟨fun _ => rfl, fun h => Bool.noConfusion h⟩
        · rintro (h | ⟨p, c, hp, hc⟩)
          · exact Option.noConfusion h
          · cases hp; exact Option.noConfusion hc
        · intro p hp; cases hp; rfl
        · intro g2; rcases t1 with _ | b1 <;> rcases t2 with _ | b2 <;> rfl
    · refine ⟨_, _, rfl, rfl, rfl, ?_, ?_, ?_, ?_⟩
      · intro p hp hrc
        cases hp
        exact Option.noConfusion hrc
      · intro _; exact ⟨rfl, rfl⟩
      · intro p hp; cases hp; rfl
      · intro g2; rcases t1 with _ | b1 <;> rcases t2 with _ | b2 <;> rfl

/-- Witness for C7 at a concrete session: a running child, both pumps live,
grace period elapsing, so the kill path is taken. -/
theorem terminate_spec_witness :
    ∃ r1 evs,
      ScriptRunner.terminate
          { script_id := "hangman",
            process := some { returncode := none, exitCode := 0, stdinOpen := true },
            stdout_task := some false, stderr_task := some false } false
        = Except.ok (r1, evs)
      ∧ evs = SEvent.sentTerm :: SEvent.gracePassed :: SEvent.sentKill
          :: (ScriptRunner._cleanup_tasks
                { script_id := "hangman",
                  process := some { returncode := none, exitCode := 0, stdinOpen := true },
                  stdout_task := some false, stderr_task := some false }).2 := by
  obtain ⟨r1, evs, h1, _, _, h4, _⟩ :=
    terminate_spec
      { script_id := "hangman",
        process := some { returncode := none, exitCode := 0, stdinOpen := true },
        stdout_task := some false, stderr_task := some false } false
  exact ⟨r1, evs, h1, (h4 _ rfl rfl).2 rfl⟩

/-! ## Cooperative run machine (message ordering within one run)

A small-step machine over one session run, at the granularity of the
system's suspension points, each channel send being one atomic action.
Faithfulness notes, from the source:
* `start` creates the two pump tasks and then sends `status started`;
  under cooperative scheduling a freshly created task first runs when its
  creator suspends, and the creator's next suspension is that send, so the
  pumps are enabled only once `startedSent` holds;
* a pump emits one `output` per non-empty chunk and is disabled once
  cancelled;
* both `wait()` and `terminate()` cancel the two pump tasks and await the
  cancellations before the terminal status (`finished` resp. `stopped`)
  is sent, so the terminal send requires both pumps cancelled. -/

structure RunMachine where
  script_id : String
  startedSent : Bool
  outChunks : List (List Nat)
  errChunks : List (List Nat)
  outCancelled : Bool
  errCancelled : Bool
  procExited : Bool
  terminalSent : Bool
  deriving DecidableEq

inductive RStep : RunMachine → Option OutMsg → RunMachine → Prop where
  | sendStarted {s : RunMachine} (h : s.startedSent = false) :
      RStep s (some (OutMsg.statusStarted s.script_id)) { s with startedSent := true }
  | pumpStdout {s : RunMachine} {d : List Nat} {rest : List (List Nat)}
      (hs : s.startedSent = true) (hc : s.outCancelled = false)
      (hd : s.outChunks = d :: rest) (hne : d ≠ []) :
      RStep s (some (OutMsg.output "stdout" (String.mk (utf8DecodeReplace d))))
        { s with outChunks := rest }
  | pumpStderr {s : RunMachine} {d : List Nat} {rest : List (List Nat)}
      (hs : s.startedSent = true) (hc : s.errCancelled = false)
      (hd : s.errChunks = d :: rest) (hne : d ≠ []) :
      RStep s (some (OutMsg.output "stderr" (String.mk (utf8DecodeReplace d))))
        { s with errChunks := rest }
  | procExit {s : RunMachine} (h : s.procExited = false) :
      RStep s none { s with procExited := true }
  | cancelPumps {s : RunMachine} :
      RStep s none { s with outCancelled := true, errCancelled := true }
  | sendTerminal {s : RunMachine} {m : OutMsg} (hm : m.isTerminal = true)
      (h1 : s.outCancelled = true) (h2 : s.errCancelled = true)
      (h3 : s.terminalSent = false) :
      RStep s (some m) { s with terminalSent := true }

/-- Reflexive-transitive closure of `RStep`, collecting the messages sent. -/
inductive RTrace : RunMachine → List OutMsg → RunMachine → Prop where
  | nil (s : RunMachine) : RTrace s [] s
  | consEmit {s s1 s2 : RunMachine} {m : OutMsg} {t : List OutMsg}
      (hstep : RStep s (some m) s1) (htail : RTrace s1 t s2) : RTrace s (m :: t) s2
  | consTau {s s1 s2 : RunMachine} {t : List OutMsg}
      (hstep : RStep s none s1) (htail : RTrace s1 t s2) : RTrace s t s2

/-- In `t`, no `output` message occurs before a `status started`. -/
def noOutputBeforeStarted : List OutMsg → Bool
  | [] => true
  | m :: t => if m.isStarted then true else !m.isOutput && noOutputBeforeStarted t

/-- In `t`, no `output` message occurs after a terminal status. -/
def noOutputAfterTerminal : List OutMsg → Bool
  | [] => true
  | m :: t => if m.isTerminal then t.all (fun x => !x.isOutput) else noOutputAfterTerminal t

theorem isTerminal_not_started (m : OutMsg) (h : m.isTerminal = true) :
    m.isStarted = false := by
  cases m <;> simp_all [OutMsg.isTerminal, OutMsg.isStarted]

theorem isTerminal_not_output (m : OutMsg) (h : m.isTerminal = true) :
    m.isOutput = false := by
  cases m <;> simp_all [OutMsg.isTerminal, OutMsg.isOutput]

theorem noOutputAfterTerminal_cons_terminal (m : OutMsg) (t : List OutMsg)
    (hm : m.isTerminal = true) (h : t.all (fun x => !x.isOutput) = true) :
    noOutputAfterTerminal (m :: t) = true := by
  simp [noOutputAfterTerminal, hm, h]

theorem rstep_startedSent (s : RunMachine) (o : Option OutMsg) (s1 : RunMachine)
    (h : RStep s o s1) : s.startedSent = true → s1.startedSent = true := by
  cases h <;> simp_all

/-- Steps preserve the invariant: once the terminal status went out, both
pumps are cancelled. -/
theorem rstep_cancInv (s : RunMachine) (o : Option OutMsg) (s1 : RunMachine)
    (h : RStep s o s1)
    (hinv : s.terminalSent = true → s.outCancelled = true ∧ s.errCancelled = true) :
    s1.terminalSent = true → s1.outCancelled = true ∧ s1.errCancelled = true := by
  cases h <;> simp_all

theorem rtrace_noOutputBeforeStarted (s : RunMachine) (t : List OutMsg) (s1 : RunMachine)
    (htr : RTrace s t s1) (h0 : s.startedSent = false) :
    noOutputBeforeStarted t = true := by
  induction htr with
  | nil => rfl
  | consEmit hstep htail ih =>
    cases hstep with
    | sendStarted h => simp [noOutputBeforeStarted, OutMsg.isStarted]
    | pumpStdout hs hc hd hne => rw [h0] at hs; exact Bool.noConfusion hs
    | pumpStderr hs hc hd hne => rw [h0] at hs; exact Bool.noConfusion hs
    | sendTerminal hm h1 h2 h3 =>
      simp [noOutputBeforeStarted, isTerminal_not_started _ hm,
        isTerminal_not_output _ hm, ih h0]
  | consTau hstep htail ih =>
    cases hstep with
    | procExit h => exact ih h0
    | cancelPumps => exact ih h0

theorem rtrace_allNoOutput (s : RunMachine) (t : List OutMsg) (s1 : RunMachine)
    (htr : RTrace s t s1)
    (hinv : s.terminalSent = true → s.outCancelled = true ∧ s.errCancelled = true)
    (hts : s.terminalSent = true) :
    t.all (fun x => !x.isOutput) = true := by
  induction htr with
  | nil => rfl
  | consEmit hstep htail ih =>
    have hinv1 := rstep_cancInv _ _ _ hstep hinv
    cases hstep with
    | sendStarted h =>
      simpa [OutMsg.isOutput] using ih hinv1 hts
    | pumpStdout hs hc hd hne =>
      rw [(hinv hts).1] at hc; exact Bool.noConfusion hc
    | pumpStderr hs hc hd hne =>
      rw [(hinv hts).2] at hc; exact Bool.noConfusion hc
    | sendTerminal hm h1 h2 h3 => rw [hts] at h3; exact Bool.noConfusion h3
  | consTau hstep htail ih =>
    have hinv1 := rstep_cancInv _ _ _ hstep hinv
    cases hstep with
    | procExit h => exact ih hinv1 hts
    | cancelPumps => exact ih hinv1 hts

theorem rtrace_noOutputAfterTerminal (s : RunMachine) (t : List OutMsg) (s1 : RunMachine)
    (htr : RTrace s t s1)
    (hinv : s.terminalSent = true → s.outCancelled = true ∧ s.errCancelled = true) :
    noOutputAfterTerminal t = true := by
  induction htr with
  | nil => rfl
  | consEmit hstep htail ih =>
    have hinv1 := rstep_cancInv _ _ _ hstep hinv
    cases hstep with
    | sendStarted h =>
      simpa [noOutputAfterTerminal, OutMsg.isTerminal] using ih hinv1
    | pumpStdout hs hc hd hne =>
      simpa [noOutputAfterTerminal, OutMsg.isTerminal] using ih hinv1
    | pumpStderr hs hc hd hne =>
      simpa [noOutputAfterTerminal, OutMsg.isTerminal] using ih hinv1
    | sendTerminal hm h1 h2 h3 =>
      have hall := rtrace_allNoOutput _ _ _ htail hinv1 rfl
      exact noOutputAfterTerminal_cons_terminal _ _ hm hall
  | consTau hstep htail ih =>
    exact ih (rstep_cancInv _ _ _ hstep hinv)

/-- C8: along every cooperative schedule of one run, `status started`
precedes every `output` message, and no `output` message follows the
terminal status, because the terminal send is enabled only after both pump
tasks are cancelled. -/
theorem run_message_ordering (s : RunMachine) (t : List OutMsg) (s1 : RunMachine)
    (h0 : s.startedSent = false) (h1 : s.terminalSent = false)
    (htr : RTrace s t s1) :
    noOutputBeforeStarted t = true ∧ noOutputAfterTerminal t = true :=
  ⟨rtrace_noOutputBeforeStarted s t s1 htr h0,
   rtrace_noOutputAfterTerminal s t s1 htr (fun h => absurd h (by simp [h1]))⟩

/-- Witness for C8: a concrete schedule — started, one stdout chunk, child
exit, pump cancellation, terminal `finished` — satisfies both orderings. -/
theorem run_message_ordering_witness :
    noOutputBeforeStarted
        [OutMsg.statusStarted "hangman",
         OutMsg.output "stdout" (String.mk (utf8DecodeReplace [104])),
         OutMsg.statusFinished 0] = true
    ∧ noOutputAfterTerminal
        [OutMsg.statusStarted "hangman",
         OutMsg.output "stdout" (String.mk (utf8DecodeReplace [104])),
         OutMsg.statusFinished 0] = true := by
  refine run_message_ordering
    { script_id := "hangman", startedSent := false, outChunks := [[104]], errChunks := [],
      outCancelled := false, errCancelled := false, procExited := false,
      terminalSent := false } _
    { script_id := "hangman", startedSent := true, outChunks := [], errChunks := [],
      outCancelled := true, errCancelled := true, procExited := true,
      terminalSent := true } rfl rfl ?_
  refine RTrace.consEmit (RStep.sendStarted rfl) ?_
  refine RTrace.consEmit (RStep.pumpStdout rfl rfl rfl (by decide)) ?_
  refine RTrace.consTau (RStep.procExit rfl) ?_
  refine RTrace.consTau RStep.cancelPumps ?_
  refine RTrace.consEmit (RStep.sendTerminal (m := OutMsg.statusFinished 0) rfl rfl rfl rfl) ?_
  exact RTrace.nil _

/-! ## The channel coordinator (`websocket_run`)

One receive-loop iteration is: the `receive_text` suspension (during which
the background completion-wait task `runner.wait()` may run to completion
if the child exits), then `json.loads` and dispatch on `action`, then — only
on paths that do not `continue` and do not raise — the end-of-iteration
check that clears the runner slot once the wait task is done.

An `Inbound` message is either `malformed` (a text on which `json.loads`
raises, an exception the loop does not catch) or the parsed object with its
`action`, `script` and `data` fields.  `Event` packages, per iteration, the
inbound message together with the environment's choices: whether the child
exits during the receive suspension, the exit code a child spawned this
iteration will produce, and whether a terminated child exits within the
grace period.

`ghosts` is bookkeeping, not program state: every runner that leaves the
slot variable is appended to it, so "no child process outlives the
coordinator" can be stated about all processes ever spawned. -/

inductive Inbound where
  | malformed
  | obj (action : Option String) (script : Option String) (data : Option String)
  deriving DecidableEq

inductive Fault where
  | jsonDecodeError
  | writeFault (e : WriteErr)
  deriving DecidableEq

inductive Ctl where
  | next
  | continued
  | fault (f : Fault)
  deriving DecidableEq

structure CoordState where
  runner : Option ScriptRunner
  waitTaskDone : Option Bool
  ghosts : List ScriptRunner
  deriving DecidableEq

structure Event where
  exitDuringReceive : Bool
  msg : Inbound
  spawnExitCode : Int
  exitsInGrace : Bool
  deriving DecidableEq

def initState : CoordState := { runner := none, waitTaskDone := none, ghosts := [] }

/-- `ScriptRunner.terminate` never errors (`terminate_ok` below); this is
its total form used where the coordinator awaits it. -/
def terminateTotal (r : ScriptRunner) (g : Bool) : ScriptRunner × List SEvent :=
  match ScriptRunner.terminate r g with
  | Except.ok res => res
  | Except.error _ => (r, [])

/-- The `await websocket.receive_text()` suspension: if the wait task is
outstanding and the child exits here, `runner.wait()` runs — it records the
exit code, cancels both pumps and sends `status finished` — and the wait
task becomes done.  The runner slot itself is not touched here. -/
def receivePhase (st : CoordState) (ev : Event) : CoordState × List OutMsg :=
  if ev.exitDuringReceive then
    match st.runner, st.waitTaskDone with
    | some r, some false =>
      match r.process with
      | some p =>
        if p.returncode = none then
          ({ st with runner := some (ScriptRunner.wait r).1, waitTaskDone := some true },
           sentOf (ScriptRunner.wait r).2)
        else (st, [])
      | none => (st, [])
    | _, _ => (st, [])
  else (st, [])

/-- The command dispatch, lines 280-330 of `app/main.py`: `json.loads`,
`data.get("action")`, and the four branches.  `Ctl.continued` marks the
`continue` statements (which skip the end-of-iteration check);
`Ctl.fault` marks an exception the loop does not catch. -/
def dispatch (scripts : List String) (st : CoordState) (ev : Event) :
    CoordState × List OutMsg × Ctl :=
  match ev.msg with
  | Inbound.malformed => (st, [], Ctl.fault Fault.jsonDecodeError)
  | Inbound.obj action script data =>
    if action = some "start" then
      match st.runner with
      | some _ =>
        (st, [OutMsg.statusError "Script already running"], Ctl.continued)
      | none =>
        match script with
        | none => (st, [OutMsg.statusError "Missing script id"], Ctl.continued)
        | some sid =>
          if sid = "" then (st, [OutMsg.statusError "Missing script id"], Ctl.continued)
          else
            let r0 : ScriptRunner :=
              { script_id := sid, process := none, stdout_task := none, stderr_task := none }
            match ScriptRunner.start scripts r0 ev.spawnExitCode with
            | Except.error msg =>
              ({ st with runner := none, ghosts := st.ghosts ++ [r0] },
               [OutMsg.statusError msg], Ctl.continued)
            | Except.ok (r1, msgs) =>
              ({ st with runner := some r1, waitTaskDone := some false }, msgs, Ctl.next)
    else if action = some "input" then
      match st.runner with
      | none => (st, [OutMsg.statusError "No script running"], Ctl.continued)
      | some r =>
        match ScriptRunner.write r (data.getD "") with
        | Except.ok r1 => ({ st with runner := some r1 }, [], Ctl.next)
        | Except.error e => (st, [], Ctl.fault (Fault.writeFault e))
    else if action = some "stop" then
      match st.runner with
      | some r =>
        ({ st with runner := none,
                   waitTaskDone := st.waitTaskDone.map (fun _ => true),
                   ghosts := st.ghosts ++ [(terminateTotal r ev.exitsInGrace).1] },
         [OutMsg.statusStopped], Ctl.next)
      | none => (st, [], Ctl.next)
    else (st, [OutMsg.statusError "Unknown action"], Ctl.next)

/-- Lines 332-334: `if wait_task and wait_task.done(): runner = None;
wait_task = None` — the only place the slot is cleared after a natural
exit, and it runs only at the end of an iteration that did not
`continue`. -/
def endOfLoopCheck (st : CoordState) : CoordState :=
  match st.waitTaskDone with
  | some true =>
    { st with runner := none, waitTaskDone := none,
              ghosts := st.ghosts ++ st.runner.toList }
  | _ => st

/-- One full loop iteration. -/
def stepIter (scripts : List String) (st : CoordState) (ev : Event) :
    CoordState × List OutMsg × Option Fault :=
  let a := receivePhase st ev
  match dispatch scripts a.1 ev with
  | (st2, msgs2, Ctl.fault f) => (st2, a.2 ++ msgs2, some f)
  | (st2, msgs2, Ctl.continued) => (st2, a.2 ++ msgs2, none)
  | (st2, msgs2, Ctl.next) => (endOfLoopCheck st2, a.2 ++ msgs2, none)

/-- The receive loop over a finite schedule of events; stops early when an
uncaught exception ends it, and otherwise ends by peer disconnect. -/
def runLoop (scripts : List String) (st : CoordState) :
    List Event → CoordState × List OutMsg × Option Fault
  | [] => (st, [], none)
  | ev :: evs =>
    match stepIter scripts st ev with
    | (st1, msgs, some f) => (st1, msgs, some f)
    | (st1, msgs, none) =>
      let rest := runLoop scripts st1 evs
      (rest.1, msgs ++ rest.2.1, rest.2.2)

/-- The `finally` block: terminate the active runner, if any, and cancel
the outstanding wait task. -/
def teardown (st : CoordState) (g : Bool) : CoordState :=
  let st1 :=
    match st.runner with
    | some r => { st with runner := some (terminateTotal r g).1 }
    | none => st
  { st1 with waitTaskDone := st1.waitTaskDone.map (fun _ => true) }

/-- The whole `websocket_run` handler: accept, send the `scripts` listing,
run the receive loop, and always run the `finally` teardown — whether the
loop ended by disconnect or by an uncaught exception. -/
def websocket_run (scripts : List (String × String)) (evs : List Event) (g : Bool) :
    CoordState × List OutMsg × Option Fault :=
  let ids := scripts.map Prod.fst
  let res := runLoop ids initState evs
  (teardown res.1 g, OutMsg.scriptsList scripts :: res.2.1, res.2.2)

/-- The child of a runner is dead (or was never spawned). -/
def ScriptRunner.procDeadB (r : ScriptRunner) : Bool :=
  match r.process with
  | none => true
  | some p => p.returncode.isSome

/-- The completion-wait task exists and is still pending. -/
def waitPending (st : CoordState) : Bool :=
  match st.waitTaskDone with
  | some false => true
  | _ => false

/-! ## Error handling of the receive loop (C1-C4) -/

/-- C1, counterexample: an inbound text on which `json.loads` raises is NOT
answered with a `status error` message, and the error is not contained —
the receive loop ends with an uncaught decode fault.  (`receive_text` and
`json.loads` stand outside any try/except other than the
`WebSocketDisconnect` handler.) -/
theorem malformed_text_faults_loop :
    (websocket_run [("hangman", "Hangman")]
        [{ exitDuringReceive := false, msg := Inbound.malformed, spawnExitCode := 0,
           exitsInGrace := true }] true).2.2
      = some Fault.jsonDecodeError
    ∧ ((websocket_run [("hangman", "Hangman")]
        [{ exitDuringReceive := false, msg := Inbound.malformed, spawnExitCode := 0,
           exitsInGrace := true }] true).2.1.all (fun m => !m.isError)) = true := by
  decide

/-- C1 (amended): a parsed command whose `action` is not one of `start`,
`input`, `stop` (including a missing action) is answered with
`status error "Unknown action"` and the loop continues without a fault;
unparseable text, by contrast, raises an uncaught decode error that ends
the loop (see the counterexample). -/
theorem unknown_action_reported (scripts : List String) (st : CoordState) (ev : Event)
    (a s d : Option String) (hmsg : ev.msg = Inbound.obj a s d)
    (h1 : a ≠ some "start") (h2 : a ≠ some "input") (h3 : a ≠ some "stop") :
    stepIter scripts st ev
      = (endOfLoopCheck (receivePhase st ev).1,
         (receivePhase st ev).2 ++ [OutMsg.statusError "Unknown action"], none) := by
  simp [stepIter, dispatch, hmsg, h1, h2, h3]

/-- Witness for C1's amended theorem at a concrete unrecognized action. -/
theorem unknown_action_reported_witness :
    stepIter ["hangman"] initState
        { exitDuringReceive := false, msg := Inbound.obj (some "frobnicate") none none,
          spawnExitCode := 0, exitsInGrace := true }
      = (initState, [OutMsg.statusError "Unknown action"], none) :=
  unknown_action_reported ["hangman"] initState
    { exitDuringReceive := false, msg := Inbound.obj (some "frobnicate") none none,
      spawnExitCode := 0, exitsInGrace := true }
    (some "frobnicate") none none rfl (by decide) (by decide) (by decide)

/-- C2, counterexample: a run in which the child exits while the
coordinator awaits the next command, and that command is `input`: the
write to the dead child's stdin pipe raises, nothing is reported as a
`status error`, and the uncaught exception ends the receive loop. -/
theorem write_failure_faults_loop :
    (websocket_run [("hangman", "Hangman")]
        [{ exitDuringReceive := false, msg := Inbound.obj (some "start") (some "hangman") none,
           spawnExitCode := 0, exitsInGrace := true },
         { exitDuringReceive := true, msg := Inbound.obj (some "input") none (some "hi"),
           spawnExitCode := 0, exitsInGrace := true }] true).2.2
      = some (Fault.writeFault WriteErr.pipeClosed)
    ∧ ((websocket_run [("hangman", "Hangman")]
        [{ exitDuringReceive := false, msg := Inbound.obj (some "start") (some "hangman") none,
           spawnExitCode := 0, exitsInGrace := true },
         { exitDuringReceive := true, msg := Inbound.obj (some "input") none (some "hi"),
           spawnExitCode := 0, exitsInGrace := true }] true).2.1.all
        (fun m => !m.isError)) = true := by
  decide

/-- C2 (amended): when a `ScriptRunner.write` called for an `input` command
fails, the exception is not caught at the dispatch boundary: the iteration
produces no `status error` message and the failure escapes as a fault that
terminates the receive loop (teardown still runs afterwards). -/
theorem write_failure_propagates (scripts : List String) (st : CoordState) (ev : Event)
    (s d : Option String) (r : ScriptRunner) (e : WriteErr)
    (hmsg : ev.msg = Inbound.obj (some "input") s d)
    (hr : (receivePhase st ev).1.runner = some r)
    (hw : ScriptRunner.write r (d.getD "") = Except.error e) :
    stepIter scripts st ev
      = ((receivePhase st ev).1, (receivePhase st ev).2, some (Fault.writeFault e)) := by
  simp [stepIter, dispatch, hmsg, hr, hw]

/-- Witness for C2's amended theorem: a runner with no process at all makes
`write` raise `RuntimeError`, which faults the loop. -/
theorem write_failure_propagates_witness :
    stepIter ["hangman"]
        { runner := some { script_id := "x", process := none,
                           stdout_task := none, stderr_task := none },
          waitTaskDone := none, ghosts := [] }
        { exitDuringReceive := false, msg := Inbound.obj (some "input") none (some "hi"),
          spawnExitCode := 0, exitsInGrace := true }
      = ({ runner := some { script_id := "x", process := none,
                            stdout_task := none, stderr_task := none },
           waitTaskDone := none, ghosts := [] },
         [], some (Fault.writeFault WriteErr.processNotRunning)) :=
  write_failure_propagates ["hangman"]
    { runner := some { script_id := "x", process := none,
                       stdout_task := none, stderr_task := none },
      waitTaskDone := none, ghosts := [] }
    { exitDuringReceive := false, msg := Inbound.obj (some "input") none (some "hi"),
      spawnExitCode := 0, exitsInGrace := true }
    none (some "hi") _ WriteErr.processNotRunning rfl rfl rfl

/-- C3: the runner slot is a single optional reference, so at most one
session is active at any instant; a `start` received while it is occupied
is answered with `status error "Script already running"`, the whole
coordinator state — including the active session — is returned unchanged,
and the loop does not fault. -/
theorem second_start_rejected (scripts : List String) (st : CoordState) (ev : Event)
    (s d : Option String) (r : ScriptRunner)
    (hr : st.runner = some r)
    (hmsg : ev.msg = Inbound.obj (some "start") s d)
    (hx : ev.exitDuringReceive = false) :
    stepIter scripts st ev = (st, [OutMsg.statusError "Script already running"], none) := by
  simp [stepIter, receivePhase, dispatch, hmsg, hx, hr]

/-- Witness for C3 with a concrete active session. -/
theorem second_start_rejected_witness :
    stepIter ["hangman"]
        { runner := some { script_id := "hangman",
                           process := some { returncode := none, exitCode := 0, stdinOpen := true },
                           stdout_task := some false, stderr_task := some false },
          waitTaskDone := some false, ghosts := [] }
        { exitDuringReceive := false, msg := Inbound.obj (some "start") (some "hangman") none,
          spawnExitCode := 0, exitsInGrace := true }
      = ({ runner := some { script_id := "hangman",
                            process := some { returncode := none, exitCode := 0, stdinOpen := true },
                            stdout_task := some false, stderr_task := some false },
           waitTaskDone := some false, ghosts := [] },
         [OutMsg.statusError "Script already running"], none) :=
  second_start_rejected ["hangman"] _ _ (some "hangman") none _ rfl rfl rfl

/-- C4: a `start` whose id the resolver does not know spawns nothing — the
lookup in the script table precedes the spawn, and the runner discarded on
the 404 has no process — the coordinator answers with exactly one
`status error` ("Script not found"), emits no `output` message, does not
fault, and leaves no session active. -/
theorem unknown_script_start_safe (scripts : List String) (st : CoordState) (ev : Event)
    (sid : String) (d : Option String)
    (hr : st.runner = none)
    (hmsg : ev.msg = Inbound.obj (some "start") (some sid) d)
    (hsid : sid ≠ "") (hmem : sid ∉ scripts) :
    stepIter scripts st ev
      = ({ st with runner := none,
                   ghosts := st.ghosts ++ [{ script_id := sid, process := none,
                                             stdout_task := none, stderr_task := none }] },
         [OutMsg.statusError "Script not found"], none)
    ∧ ((stepIter scripts st ev).2.1.all (fun m => !m.isOutput)) = true
    ∧ (stepIter scripts st ev).1.runner = none := by
  have hrec : receivePhase st ev = (st, []) := by
    unfold receivePhase
    split
    · rw [hr]
    · rfl
  have main : stepIter scripts st ev
      = ({ st with runner := none,
                   ghosts := st.ghosts ++ [{ script_id := sid, process := none,
                                             stdout_task := none, stderr_task := none }] },
         [OutMsg.statusError "Script not found"], none) := by
    simp [stepIter, dispatch, hrec, hmsg, hr, hsid, ScriptRunner.start, hmem]
  refine ⟨main, ?_, ?_⟩
  · rw [main]; simp [OutMsg.isOutput]
  · rw [main]

/-- Witness for C4 at a concrete unknown id. -/
theorem unknown_script_start_safe_witness :
    stepIter ["hangman"] initState
        { exitDuringReceive := false, msg := Inbound.obj (some "start") (some "nope") none,
          spawnExitCode := 0, exitsInGrace := true }
      = ({ runner := none, waitTaskDone := none,
           ghosts := [{ script_id := "nope", process := none,
                        stdout_task := none, stderr_task := none }] },
         [OutMsg.statusError "Script not found"], none) :=
  (unknown_script_start_safe ["hangman"] initState
    { exitDuringReceive := false, msg := Inbound.obj (some "start") (some "nope") none,
      spawnExitCode := 0, exitsInGrace := true }
    "nope" none rfl rfl (by decide) (by decide)).1

/-! ## No child process survives the coordinator (C9)

Invariant machinery: every runner in `ghosts` has a dead (or never
spawned) child, and whenever the wait task is done the runner still in the
slot has a dead child; `teardown` then kills whatever is left in the
slot. -/

theorem wait_procDead (r : ScriptRunner) : ((ScriptRunner.wait r).1).procDeadB = true := by
  unfold ScriptRunner.wait
  rcases hp : r.process with _ | p
  · simp [ScriptRunner.procDeadB, hp]
  · simp [ScriptRunner.procDeadB, ScriptRunner._cleanup_tasks]

theorem terminateTotal_procDead (r : ScriptRunner) (g : Bool) :
    ((terminateTotal r g).1).procDeadB = true := by
  obtain ⟨sid, pr, t1, t2⟩ := r
  rcases pr with _ | ⟨rc, ec, so⟩
  · simp [terminateTotal, ScriptRunner.terminate, ScriptRunner.procDeadB,
      ScriptRunner._cleanup_tasks]
  · rcases rc with _ | c
    · cases g <;>
        simp [terminateTotal, ScriptRunner.terminate, Proc.terminateSignal, Proc.kill,
          ScriptRunner.procDeadB, ScriptRunner._cleanup_tasks]
    · simp [terminateTotal, ScriptRunner.terminate, ScriptRunner.procDeadB,
        ScriptRunner._cleanup_tasks]

theorem write_ok_eq (r r1 : ScriptRunner) (s : String)
    (h : ScriptRunner.write r s = Except.ok r1) : r1 = r := by
  unfold ScriptRunner.write at h
  rcases hp : r.process with _ | p <;> rw [hp] at h
  · exact Except.noConfusion h
  · by_cases hs : p.stdinOpen = true
    · simp [hs] at h
      exact h.symm
    · simp [hs] at h

/-- All runners that ever left the slot have a dead or absent child. -/
def ghostsDead (st : CoordState) : Bool := st.ghosts.all ScriptRunner.procDeadB

/-- The runner in the slot, if any, has a dead or absent child. -/
def runnerDeadB (st : CoordState) : Bool :=
  match st.runner with
  | none => true
  | some r => r.procDeadB

/-- Once the completion-wait task is done, the slot runner's child is dead. -/
def slotSafe (st : CoordState) : Prop :=
  st.waitTaskDone = some true → ∀ r, st.runner = some r → r.procDeadB = true

theorem receivePhase_inv (st : CoordState) (ev : Event)
    (h1 : ghostsDead st = true) (h2 : slotSafe st) :
    ghostsDead (receivePhase st ev).1 = true ∧ slotSafe (receivePhase st ev).1 := by
  unfold receivePhase
  split
  · split
    · split
      · split
        · refine ⟨h1, ?_⟩
          intro _ r1 hr1
          injection hr1 with h
          subst h
          exact wait_procDead _
        · exact ⟨h1, h2⟩
      · exact ⟨h1, h2⟩
    · exact ⟨h1, h2⟩
  · exact ⟨h1, h2⟩

theorem dispatch_inv (scripts : List String) (st : CoordState) (ev : Event)
    (h1 : ghostsDead st = true) (h2 : slotSafe st) :
    ghostsDead (dispatch scripts st ev).1 = true ∧ slotSafe (dispatch scripts st ev).1 := by
  obtain ⟨x, msg, ec, g⟩ := ev
  rcases msg with _ | ⟨a, s, d⟩
  · exact ⟨h1, h2⟩
  · by_cases ha : a = some "start"
    · rcases hrr : st.runner with _ | r
      · rcases s with _ | sid
        · simpa [dispatch, ha, hrr] using ⟨h1, h2⟩
        · by_cases hsid : sid = ""
          · simpa [dispatch, ha, hrr, hsid] using ⟨h1, h2⟩
          · by_cases hmem : sid ∈ scripts
            · simp [dispatch, ha, hrr, hsid, ScriptRunner.start, hmem]
              refine ⟨h1, ?_⟩
              intro hwt r2 hr2
              simp at hwt
            · simp [dispatch, ha, hrr, hsid, ScriptRunner.start, hmem]
              constructor
              · simp [ghostsDead, List.all_append] at h1 ⊢
                exact ⟨h1, by simp [ScriptRunner.procDeadB]⟩
              · intro hwt r2 hr2
                simp at hr2
      · simpa [dispatch, ha, hrr] using ⟨h1, h2⟩
    · by_cases hb : a = some "input"
      · rcases hrr : st.runner with _ | r
        · simpa [dispatch, ha, hb, hrr] using ⟨h1, h2⟩
        · cases hwr : ScriptRunner.write r (d.getD "") with
          | error e => simpa [dispatch, ha, hb, hrr, hwr] using ⟨h1, h2⟩
          | ok r1 =>
            have hr1 : r1 = r := write_ok_eq r r1 _ hwr
            subst hr1
            simp [dispatch, ha, hb, hrr, hwr]
            refine ⟨h1, ?_⟩
            intro hwt r2 hr2
            injection hr2 with h
            subst h
            exact h2 hwt r1 hrr
      · by_cases hc : a = some "stop"
        · rcases hrr : st.runner with _ | r
          · simpa [dispatch, ha, hb, hc, hrr] using ⟨h1, h2⟩
          · simp [dispatch, ha, hb, hc, hrr]
            constructor
            · simp [ghostsDead, List.all_append] at h1 ⊢
              exact ⟨h1, terminateTotal_procDead r g⟩
            · intro hwt r2 hr2
              simp at hr2
        · simpa [dispatch, ha, hb, hc] using ⟨h1, h2⟩

theorem endOfLoopCheck_inv (st : CoordState)
    (h1 : ghostsDead st = true) (h2 : slotSafe st) :
    ghostsDead (endOfLoopCheck st) = true ∧ slotSafe (endOfLoopCheck st) := by
  unfold endOfLoopCheck
  split
  · rename_i hwt
    constructor
    · rcases hrr : st.runner with _ | r
      · simpa [ghostsDead, hrr] using h1
      · have hd := h2 hwt r hrr
        simp [ghostsDead, hrr, List.all_append] at h1 ⊢
        exact ⟨h1, hd⟩
    · intro hwt2 r hr
      exact Option.noConfusion hr
  · exact ⟨h1, h2⟩

theorem stepIter_inv (scripts : List String) (st : CoordState) (ev : Event)
    (h1 : ghostsDead st = true) (h2 : slotSafe st) :
    ghostsDead (stepIter scripts st ev).1 = true ∧ slotSafe (stepIter scripts st ev).1 := by
  have hA := receivePhase_inv st ev h1 h2
  have hB := dispatch_inv scripts (receivePhase st ev).1 ev hA.1 hA.2
  simp only [stepIter]
  split
  · rename_i heq
    rw [heq] at hB
    exact hB
  · rename_i heq
    rw [heq] at hB
    exact hB
  · rename_i heq
    rw [heq] at hB
    exact endOfLoopCheck_inv _ hB.1 hB.2

theorem runLoop_inv (scripts : List String) (evs : List Event) : ∀ st : CoordState,
    ghostsDead st = true → slotSafe st →
    ghostsDead (runLoop scripts st evs).1 = true ∧ slotSafe (runLoop scripts st evs).1 := by
  induction evs with
  | nil => intro st h1 h2; exact ⟨h1, h2⟩
  | cons ev evs ih =>
    intro st h1 h2
    have hs := stepIter_inv scripts st ev h1 h2
    unfold runLoop
    split
    · rename_i heq
      rw [heq] at hs
      exact hs
    · rename_i heq
      rw [heq] at hs
      exact ih _ hs.1 hs.2

/-- C9: after the handler returns — whether the loop ended by peer
disconnect or by an uncaught fault — the `finally` teardown has terminated
the active session, every runner that ever held a child process has a dead
child, and the completion-wait task is no longer pending: no child process
outlives the channel. -/
theorem teardown_no_orphans (scripts : List (String × String)) (evs : List Event) (g : Bool) :
    ghostsDead (websocket_run scripts evs g).1 = true
    ∧ runnerDeadB (websocket_run scripts evs g).1 = true
    ∧ waitPending (websocket_run scripts evs g).1 = false := by
  have h := runLoop_inv (scripts.map Prod.fst) evs initState rfl
    (fun _ r hr => Option.noConfusion hr)
  rcases hrr : (runLoop (scripts.map Prod.fst) initState evs).1.runner with _ | r <;>
    rcases hwt : (runLoop (scripts.map Prod.fst) initState evs).1.waitTaskDone with _ | b <;>
    refine ⟨?_, ?_, ?_⟩ <;>
    simp [websocket_run, teardown, ghostsDead, runnerDeadB, waitPending, hrr, hwt,
      terminateTotal_procDead, h.1] <;>
    simpa [ghostsDead] using h.1

/-! ## Slot clearing after a natural exit (C10) -/

theorem sentOf_cleanup (r : ScriptRunner) :
    sentOf (ScriptRunner._cleanup_tasks r).2 = [] := by
  unfold ScriptRunner._cleanup_tasks
  rcases r.stdout_task with _ | b1 <;> rcases r.stderr_task with _ | b2 <;> rfl

theorem sentOf_wait (r : ScriptRunner) (p : Proc)
    (hp : r.process = some p) (hrc : p.returncode = none) :
    sentOf (ScriptRunner.wait r).2 = [OutMsg.statusFinished p.exitCode] := by
  have hc := sentOf_cleanup
    { r with process := some { p with returncode := some p.exitCode, stdinOpen := false } }
  simp [ScriptRunner.wait, hp, hrc, sentOf, List.filterMap_append] at hc ⊢
  exact hc

theorem runLoop_cons_ok (scripts : List String) (st : CoordState) (ev : Event)
    (evs : List Event) (st1 : CoordState) (msgs : List OutMsg)
    (h : stepIter scripts st ev = (st1, msgs, none)) :
    runLoop scripts st (ev :: evs)
      = ((runLoop scripts st1 evs).1,
         msgs ++ (runLoop scripts st1 evs).2.1,
         (runLoop scripts st1 evs).2.2) := by
  simp [runLoop, h]

/-- C10: when the child exits naturally while the coordinator awaits the
next command, the completion-wait continuation emits `status finished` and
marks itself done but does not touch the runner slot — the slot is cleared
only by the end-of-iteration check.  Consequently the first `start`
received after the natural exit, with no intervening command, is rejected
with "Script already running" and leaves the slot still occupied (its
rejection path `continue`s past the end-of-iteration check), so only a
command after that one can start a new script: in the run below, the
command after the rejected `start` completes an iteration, the slot clears,
and the next `start` then succeeds. -/
theorem natural_exit_slot_clearing (scripts : List String) (st : CoordState)
    (r : ScriptRunner) (p : Proc) (sid : String) (ec1 ec3 : Int) (g : Bool)
    (ev1 ev2 ev3 : Event)
    (hr : st.runner = some r) (hp : r.process = some p) (hrc : p.returncode = none)
    (hw : st.waitTaskDone = some false)
    (hsid : sid ≠ "") (hmem : sid ∈ scripts)
    (he1 : ev1 = { exitDuringReceive := true,
                   msg := Inbound.obj (some "start") (some sid) none,
                   spawnExitCode := ec1, exitsInGrace := g })
    (he2 : ev2 = { exitDuringReceive := false,
                   msg := Inbound.obj (some "noop") none none,
                   spawnExitCode := ec1, exitsInGrace := g })
    (he3 : ev3 = { exitDuringReceive := false,
                   msg := Inbound.obj (some "start") (some sid) none,
                   spawnExitCode := ec3, exitsInGrace := g }) :
    (receivePhase st ev1).1.runner = some (ScriptRunner.wait r).1
    ∧ stepIter scripts st ev1
      = ({ st with runner := some (ScriptRunner.wait r).1, waitTaskDone := some true },
         [OutMsg.statusFinished p.exitCode, OutMsg.statusError "Script already running"],
         none)
    ∧ (runLoop scripts st [ev1, ev2, ev3]).2.1
      = [OutMsg.statusFinished p.exitCode,
         OutMsg.statusError "Script already running",
         OutMsg.statusError "Unknown action",
         OutMsg.statusStarted sid]
    ∧ (runLoop scripts st [ev1, ev2, ev3]).2.2 = none := by
  subst he1 he2 he3
  have hrecv : receivePhase st
      { exitDuringReceive := true, msg := Inbound.obj (some "start") (some sid) none,
        spawnExitCode := ec1, exitsInGrace := g }
      = ({ st with runner := some (ScriptRunner.wait r).1, waitTaskDone := some true },
         [OutMsg.statusFinished p.exitCode]) := by
    simp [receivePhase, hr, hw, hp, hrc, sentOf_wait r p hp hrc]
  have hstep1 : stepIter scripts st
      { exitDuringReceive := true, msg := Inbound.obj (some "start") (some sid) none,
        spawnExitCode := ec1, exitsInGrace := g }
      = ({ st with runner := some (ScriptRunner.wait r).1, waitTaskDone := some true },
         [OutMsg.statusFinished p.exitCode, OutMsg.statusError "Script already running"],
         none) := by
    simp [stepIter, hrecv, dispatch]
  have hstep2 : stepIter scripts
      { st with runner := some (ScriptRunner.wait r).1, waitTaskDone := some true }
      { exitDuringReceive := false, msg := Inbound.obj (some "noop") none none,
        spawnExitCode := ec1, exitsInGrace := g }
      = ({ st with runner := none, waitTaskDone := none,
                   ghosts := st.ghosts ++ [(ScriptRunner.wait r).1] },
         [OutMsg.statusError "Unknown action"], none) := by
    simp [stepIter, receivePhase, dispatch, endOfLoopCheck]
  have hstep3 : stepIter scripts
      { st with runner := none, waitTaskDone := none,
                ghosts := st.ghosts ++ [(ScriptRunner.wait r).1] }
      { exitDuringReceive := false, msg := Inbound.obj (some "start") (some sid) none,
        spawnExitCode := ec3, exitsInGrace := g }
      = ({ st with
           runner := some { script_id := sid,
                            process := some { returncode := none, exitCode := ec3,
                                              stdinOpen := true },
                            stdout_task := some false, stderr_task := some false },
           waitTaskDone := some false,
           ghosts := st.ghosts ++ [(ScriptRunner.wait r).1] },
         [OutMsg.statusStarted sid], none) := by
    simp [stepIter, receivePhase, dispatch, endOfLoopCheck, ScriptRunner.start, hsid, hmem]
  refine ⟨by rw [hrecv], hstep1, ?_, ?_⟩ <;>
    rw [runLoop_cons_ok scripts st _ _ _ _ hstep1,
      runLoop_cons_ok scripts _ _ _ _ _ hstep2,
      runLoop_cons_ok scripts _ _ _ _ _ hstep3] <;>
    rfl

/-- Witness for C10 at a concrete state and schedule. -/
theorem natural_exit_slot_clearing_witness :
    (runLoop ["hangman"]
        { runner := some { script_id := "hangman",
                           process := some { returncode := none, exitCode := 3, stdinOpen := true },
                           stdout_task := some false, stderr_task := some false },
          waitTaskDone := some false, ghosts := [] }
        [{ exitDuringReceive := true,
           msg := Inbound.obj (some "start") (some "hangman") none,
           spawnExitCode := 5, exitsInGrace := true },
         { exitDuringReceive := false,
           msg := Inbound.obj (some "noop") none none,
           spawnExitCode := 5, exitsInGrace := true },
         { exitDuringReceive := false,
           msg := Inbound.obj (some "start") (some "hangman") none,
           spawnExitCode := 9, exitsInGrace := true }]).2.1
      = [OutMsg.statusFinished 3,
         OutMsg.statusError "Script already running",
         OutMsg.statusError "Unknown action",
         OutMsg.statusStarted "hangman"] :=
  (natural_exit_slot_clearing ["hangman"] _ _ _ "hangman" 5 9 true _ _ _
    rfl rfl rfl rfl (by decide) (by decide) rfl rfl rfl).2.2.1

end MWebsite
